import Mathlib

/-!
Verification of the GraphicDesignerTool core pipeline
(`src/graphic_designer_tool/core/image_generator.py`).

The core is the single class `ImageGenerator` with four operations:
constructor validation of the dimensions string, `generate_visual`
(one call to the external generation API, returning image URLs in
order), `get_image_from_url` (one HTTP GET with a 10-second timeout,
returning the raw body), and `get_images` (request URLs, fetch every
URL sequentially, decode the first buffer with `Image.open`).

The embedding is a shallow one: external collaborators (the generation
API, the HTTP layer, the image decoder) are an explicit environment
`Env`, and each operation returns both the ordered trace of external
events it performs and its `Except` result, so that claims about call
counts, call order, sequencing and error propagation become statements
about the trace.  Python exceptions are the `Err` type; an uncaught
exception is an `Except.error` result.
-/

namespace GDTool

/-- Raw byte buffers (Python `bytes`), one `Nat` per byte. -/
abbrev Bytes := List Nat

/-- An in-memory decoded image handle (the `PIL.Image` object produced by
`Image.open`); its internals are irrelevant to the pipeline, only identity. -/
structure PILImage where
  handle : Nat
deriving DecidableEq, Repr

/-- Errors a pipeline run can surface (Python exception classes):
`valueError` is the `ValueError` raised by the constructor, `indexError`
the `IndexError` of an out-of-range list index; the remaining
constructors are errors raised by the external collaborators and carry
an identifying code so that "propagated unchanged" is a provable
equality. -/
inductive Err where
  | valueError
  | indexError
  | apiFailure (code : Nat)
  | timeoutFailure
  | connectionFailure (code : Nat)
  | decodeFailure (code : Nat)
deriving DecidableEq, Repr

/-- The request sent to `openai.images.generate`: keyword arguments
`model`, `prompt`, `size`, `quality`, `n` of the single call in
`generate_visual`. -/
structure ApiRequest where
  model : String
  prompt : String
  size : String
  quality : String
  n : Int
deriving DecidableEq, Repr

/-- One element of the `.data` list of the generation API response;
the code reads only its `url` field. -/
structure ImageData where
  url : String
deriving DecidableEq, Repr

/-- The response object of `requests.get`: a status code and the raw
body (`.content`).  The code never inspects `status`. -/
structure HttpResponse where
  status : Nat
  content : Bytes
deriving DecidableEq, Repr

/-- Observable external events of a pipeline run, in the order they are
performed: a call to the generation API, an HTTP GET with its timeout in
seconds, and a decode (`Image.open`) of a byte buffer. -/
inductive Event where
  | apiCall (req : ApiRequest)
  | httpGet (url : String) (timeoutSecs : Nat)
  | decodeCall (buf : Bytes)
deriving DecidableEq, Repr

/-- The external world: the generation API, the HTTP layer and the image
decoder.  Each may fail with an `Err`. -/
structure Env where
  generate : ApiRequest → Except Err (List ImageData)
  httpGet : String → Nat → Except Err HttpResponse
  decode : Bytes → Except Err PILImage

/-- The `ImageGenerator` object: the four attributes assigned in
`__init__`, immutable thereafter (no method ever reassigns them). -/
structure ImageGenerator where
  model : String
  quality : String
  n : Int
  dim : String
deriving DecidableEq, Repr

/-- The allowed dimension strings of the `__init__` membership check. -/
def allowedDims : List String := ["1024x1024", "1024x1792", "1792x1024"]

/-- `ImageGenerator.__init__`: stores the four parameters, then raises
`ValueError` when `dim` is not one of the three allowed strings.  The
constructor performs no external events, hence the empty trace. -/
def ImageGenerator.init (model quality : String) (n : Int) (dim : String) :
    List Event × Except Err ImageGenerator :=
  ([],
    if dim ∈ allowedDims then
      Except.ok { model := model, quality := quality, n := n, dim := dim }
    else
      Except.error Err.valueError)

/-- The request `generate_visual` builds for `openai.images.generate`:
the synthetic prompt prefix followed by the description, and the stored
model, dimensions, quality and count. -/
def apiRequestOf (g : ImageGenerator) (visual_description : String) : ApiRequest :=
  { model := g.model
    prompt := "Create a visual following this description: " ++ visual_description
    size := g.dim
    quality := g.quality
    n := g.n }

/-- `ImageGenerator.generate_visual`: one call to the generation API;
on success returns `[response.url for response in responses]`, i.e. the
URLs of the `.data` list in order. -/
def ImageGenerator.generate_visual (g : ImageGenerator) (env : Env)
    (visual_description : String) : List Event × Except Err (List String) :=
  ([Event.apiCall (apiRequestOf g visual_description)],
    match env.generate (apiRequestOf g visual_description) with
    | Except.error e => Except.error e
    | Except.ok responses => Except.ok (responses.map ImageData.url))

/-- `ImageGenerator.get_image_from_url`: `requests.get(url, timeout=10).content`
— a single GET with timeout 10, returning the raw body without any
status-code check; a transport error propagates. -/
def ImageGenerator.get_image_from_url (env : Env) (url : String) :
    List Event × Except Err Bytes :=
  ([Event.httpGet url 10],
    match env.httpGet url 10 with
    | Except.error e => Except.error e
    | Except.ok resp => Except.ok resp.content)

/-- The `for image_url in generated_image_urls` loop of `get_images`:
fetches each URL in order, appending the bodies; a failing fetch stops
the loop and propagates its error, so later URLs are not fetched. -/
def fetchLoop (env : Env) : List String → List Event × Except Err (List Bytes)
  | [] => ([], Except.ok [])
  | url :: rest =>
    match (ImageGenerator.get_image_from_url env url).2 with
    | Except.error e => ((ImageGenerator.get_image_from_url env url).1, Except.error e)
    | Except.ok buf =>
      ((ImageGenerator.get_image_from_url env url).1 ++ (fetchLoop env rest).1,
        match (fetchLoop env rest).2 with
        | Except.error e => Except.error e
        | Except.ok bufs => Except.ok (buf :: bufs))

/-- `ImageGenerator.get_images`: calls `generate_visual`, fetches every
returned URL in order, then evaluates `Image.open(io.BytesIO(images[0]))`:
an `IndexError` when the buffer list is empty, otherwise the decode of
the first buffer. -/
def ImageGenerator.get_images (g : ImageGenerator) (env : Env)
    (visual_description : String) : List Event × Except Err PILImage :=
  let r1 := g.generate_visual env visual_description
  match r1.2 with
  | Except.error e => (r1.1, Except.error e)
  | Except.ok generated_image_urls =>
    let r2 := fetchLoop env generated_image_urls
    match r2.2 with
    | Except.error e => (r1.1 ++ r2.1, Except.error e)
    | Except.ok images =>
      match images with
      | [] => (r1.1 ++ r2.1, Except.error Err.indexError)
      | buf :: _ => (r1.1 ++ r2.1 ++ [Event.decodeCall buf], env.decode buf)

/-- Recognises decode events, for counting decodes in a trace. -/
def Event.isDecode : Event → Bool
  | Event.decodeCall _ => true
  | _ => false

/-- Recognises generation-API events, for counting API calls in a trace. -/
def Event.isApi : Event → Bool
  | Event.apiCall _ => true
  | _ => false

/- Concrete environments used to instantiate the theorems below. -/

/-- Two image descriptors as in the repository's own test data. -/
def dataW : List ImageData :=
  [{ url := "https://example.com/image1.png" },
   { url := "https://example.com/image2.png" }]

/-- An environment in which every external call succeeds: the API
returns `dataW`, a GET returns status 200 with a one-byte body equal to
the URL length, the decoder returns a handle equal to the buffer length. -/
def envW : Env where
  generate := fun _ => Except.ok dataW
  httpGet := fun url _ => Except.ok { status := 200, content := [url.length] }
  decode := fun b => Except.ok { handle := b.length }

/-- An environment whose generation API fails. -/
def envApiFail : Env where
  generate := fun _ => Except.error (Err.apiFailure 7)
  httpGet := fun url _ => Except.ok { status := 200, content := [url.length] }
  decode := fun b => Except.ok { handle := b.length }

/-- An environment whose HTTP layer times out on every GET. -/
def envFetchFail : Env where
  generate := fun _ => Except.ok dataW
  httpGet := fun _ _ => Except.error Err.timeoutFailure
  decode := fun b => Except.ok { handle := b.length }

/-- An environment whose generation API returns an empty descriptor list. -/
def envEmpty : Env where
  generate := fun _ => Except.ok []
  httpGet := fun url _ => Except.ok { status := 200, content := [url.length] }
  decode := fun b => Except.ok { handle := b.length }

/-- A sample generator matching the repository's tests. -/
def genW : ImageGenerator :=
  { model := "dall-e", quality := "high", n := 2, dim := "1024x1024" }

/- Helper lemmas about the fetch loop. -/

/-- A successful fetch loop performed exactly one GET per URL, in the
order of the URL list, and produced one buffer per URL. -/
theorem fetchLoop_ok_events (env : Env) (urls : List String) (bufs : List Bytes)
    (h : (fetchLoop env urls).2 = Except.ok bufs) :
    (fetchLoop env urls).1 = urls.map (fun u => Event.httpGet u 10) ∧
      bufs.length = urls.length := by
  induction urls generalizing bufs with
  | nil =>
    simp only [fetchLoop] at h ⊢
    cases h
    simp
  | cons u rest ih =>
    simp only [fetchLoop] at h ⊢
    cases hget : (ImageGenerator.get_image_from_url env u).2 with
    | error e => rw [hget] at h; cases h
    | ok buf =>
      rw [hget] at h
      cases hrest : (fetchLoop env rest).2 with
      | error e => simp only [hrest] at h; cases h
      | ok bs =>
        simp only [hrest] at h
        cases h
        have := ih bs hrest
        simp [ImageGenerator.get_image_from_url, this.1, this.2]

/-- A successful fetch loop on a nonempty URL list: the first buffer is
exactly the body fetched from the first URL. -/
theorem fetchLoop_cons_ok (env : Env) (u : String) (rest : List String)
    (bufs : List Bytes) (h : (fetchLoop env (u :: rest)).2 = Except.ok bufs) :
    ∃ b bs, (ImageGenerator.get_image_from_url env u).2 = Except.ok b ∧
      (fetchLoop env rest).2 = Except.ok bs ∧ bufs = b :: bs := by
  simp only [fetchLoop] at h
  cases hget : (ImageGenerator.get_image_from_url env u).2 with
  | error e => rw [hget] at h; cases h
  | ok buf =>
    rw [hget] at h
    cases hrest : (fetchLoop env rest).2 with
    | error e => simp only [hrest] at h; cases h
    | ok bs =>
      simp only [hrest] at h
      cases h
      exact ⟨buf, bs, rfl, rfl, rfl⟩

/- Claim theorems. -/

/-- Claim C2: for every model, quality and count, construction with a
dimensions string outside the three allowed literals fails with the
`ValueError`, and construction with an allowed string succeeds and
stores all four parameters verbatim. -/
theorem construct_dim_check (model quality : String) (n : Int) (dim : String) :
    (dim ∉ allowedDims →
      (ImageGenerator.init model quality n dim).2 = Except.error Err.valueError) ∧
    (dim ∈ allowedDims →
      (ImageGenerator.init model quality n dim).2 =
        Except.ok { model := model, quality := quality, n := n, dim := dim }) := by
  constructor
  · intro h
    simp [ImageGenerator.init, h]
  · intro h
    simp [ImageGenerator.init, h]

/-- Witness for C2 at concrete inputs: "800x600" is rejected with the
`ValueError`, "1024x1024" is accepted and all four parameters are stored. -/
theorem construct_dim_check_witness :
    (ImageGenerator.init "dall-e" "high" 2 "800x600").2 = Except.error Err.valueError ∧
    (ImageGenerator.init "dall-e" "high" 2 "1024x1024").2 =
      Except.ok { model := "dall-e", quality := "high", n := 2, dim := "1024x1024" } :=
  ⟨(construct_dim_check "dall-e" "high" 2 "800x600").1 (by decide),
   (construct_dim_check "dall-e" "high" 2 "1024x1024").2 (by decide)⟩

/-- Claim C4: `generate_visual` performs exactly one external call, to
the generation API, whose prompt is the literal prefix followed by the
description, and whose model, size, quality and n are exactly the four
stored construction parameters.  This holds in every environment, with
no hypothesis. -/
theorem requestImageURLs_single_exact_call (g : ImageGenerator) (env : Env)
    (d : String) :
    (g.generate_visual env d).1 =
      [Event.apiCall
        { model := g.model
          prompt := "Create a visual following this description: " ++ d
          size := g.dim
          quality := g.quality
          n := g.n }] := rfl

/-- Claim C3: whenever the generation API responds with descriptor list
`datas`, `generate_visual` returns exactly the `url` fields of `datas`,
in the same order, with no filtering, deduplication or reordering. -/
theorem requestImageURLs_order (g : ImageGenerator) (env : Env) (d : String)
    (datas : List ImageData)
    (h : env.generate (apiRequestOf g d) = Except.ok datas) :
    (g.generate_visual env d).2 = Except.ok (datas.map ImageData.url) := by
  simp [ImageGenerator.generate_visual, h]

/-- Witness for C3: in `envW` the API returns two descriptors and the
two URLs come back in order. -/
theorem requestImageURLs_order_witness :
    (genW.generate_visual envW "A surreal forest landscape at sunset").2 =
      Except.ok ["https://example.com/image1.png", "https://example.com/image2.png"] :=
  requestImageURLs_order genW envW "A surreal forest landscape at sunset" dataW rfl

/-- Claim C5: `get_image_from_url` performs a single GET with the fixed
timeout 10; on any response, whatever its status code, it returns
exactly the raw body, and on a transport or timeout error it fails with
that same error. -/
theorem fetchBytes_spec (env : Env) (url : String) :
    (ImageGenerator.get_image_from_url env url).1 = [Event.httpGet url 10] ∧
    (∀ resp, env.httpGet url 10 = Except.ok resp →
      (ImageGenerator.get_image_from_url env url).2 = Except.ok resp.content) ∧
    (∀ e, env.httpGet url 10 = Except.error e →
      (ImageGenerator.get_image_from_url env url).2 = Except.error e) := by
  refine ⟨rfl, ?_, ?_⟩
  · intro resp h
    simp [ImageGenerator.get_image_from_url, h]
  · intro e h
    simp [ImageGenerator.get_image_from_url, h]

/-- Witness for C5: in `envW` a GET of "u" is the single traced event
with timeout 10 and returns the mocked body; in `envFetchFail` the
timeout error surfaces unchanged. -/
theorem fetchBytes_spec_witness :
    (ImageGenerator.get_image_from_url envW "u").1 = [Event.httpGet "u" 10] ∧
    (ImageGenerator.get_image_from_url envW "u").2 = Except.ok [1] ∧
    (ImageGenerator.get_image_from_url envFetchFail "u").2 =
      Except.error Err.timeoutFailure :=
  ⟨(fetchBytes_spec envW "u").1,
   (fetchBytes_spec envW "u").2.1 { status := 200, content := [1] } rfl,
   (fetchBytes_spec envFetchFail "u").2.2 Err.timeoutFailure rfl⟩

/-- Claim C6: constructing with an unsupported dimensions string raises
before any external call: the construction trace is empty, the result
is the error, and no generator object is ever produced from which a
later network call could be made. -/
theorem invalid_dim_no_network (model quality : String) (n : Int) (dim : String)
    (h : dim ∉ allowedDims) :
    ImageGenerator.init model quality n dim = ([], Except.error Err.valueError) ∧
    ∀ g : ImageGenerator,
      (ImageGenerator.init model quality n dim).2 ≠ Except.ok g := by
  constructor
  · simp [ImageGenerator.init, h]
  · intro g hg
    simp [ImageGenerator.init, h] at hg

/-- Witness for C6 at the spec's example "800x600". -/
theorem invalid_dim_no_network_witness :
    ImageGenerator.init "dall-e" "high" 1 "800x600" =
      ([], Except.error Err.valueError) :=
  (invalid_dim_no_network "dall-e" "high" 1 "800x600" (by decide)).1

/-- Counterexample to claim C9: a pipeline with count 0 is constructed
successfully, so construction does not establish the invariant that the
stored count is at least 1. -/
theorem count_zero_constructed :
    (ImageGenerator.init "dall-e" "high" 0 "1024x1024").2 =
      Except.ok { model := "dall-e", quality := "high", n := 0, dim := "1024x1024" } :=
  rfl

/-- Amended claim C9: the constructor performs no validation of count —
for every integer count, including zero and negatives, construction with
an allowed dimensions string succeeds and stores the count verbatim. -/
theorem count_stored_unvalidated (model quality : String) (n : Int) (dim : String)
    (h : dim ∈ allowedDims) :
    ∃ g : ImageGenerator,
      (ImageGenerator.init model quality n dim).2 = Except.ok g ∧ g.n = n := by
  refine ⟨{ model := model, quality := quality, n := n, dim := dim }, ?_, rfl⟩
  simp [ImageGenerator.init, h]

/-- Witness for the amended C9 at count -1. -/
theorem count_stored_unvalidated_witness :
    ∃ g : ImageGenerator,
      (ImageGenerator.init "dall-e" "high" (-1) "1024x1024").2 = Except.ok g ∧
        g.n = -1 :=
  count_stored_unvalidated "dall-e" "high" (-1) "1024x1024" (by decide)

/-- Claim C10: when the generation API responds with an empty descriptor
list, `get_images` fails with the unguarded `IndexError` of `images[0]`
rather than returning a value or a pipeline-defined error. -/
theorem getImages_empty_index_error (g : ImageGenerator) (env : Env) (d : String)
    (h : env.generate (apiRequestOf g d) = Except.ok []) :
    (g.get_images env d).2 = Except.error Err.indexError := by
  simp [ImageGenerator.get_images, ImageGenerator.generate_visual, h, fetchLoop]

/-- Witness for C10: in `envEmpty` the pipeline ends in the index error. -/
theorem getImages_empty_index_error_witness :
    (genW.get_images envEmpty "A futuristic cityscape").2 =
      Except.error Err.indexError :=
  getImages_empty_index_error genW envEmpty "A futuristic cityscape" rfl

/-- Claim C1: whenever `generate_visual` returns a nonempty URL list and
every fetch succeeds, `get_images` returns exactly the decode of the
buffer fetched from the first URL, and the trace contains exactly one
decode event, on that first buffer — the remaining buffers are fetched
but never decoded. -/
theorem getImages_decodes_first (g : ImageGenerator) (env : Env) (d : String)
    (u : String) (rest : List String) (bufs : List Bytes)
    (hgen : (g.generate_visual env d).2 = Except.ok (u :: rest))
    (hfetch : (fetchLoop env (u :: rest)).2 = Except.ok bufs) :
    ∃ b1, (ImageGenerator.get_image_from_url env u).2 = Except.ok b1 ∧
      (g.get_images env d).2 = env.decode b1 ∧
      (g.get_images env d).1.filter Event.isDecode = [Event.decodeCall b1] := by
  obtain ⟨b, bs, hu, hrest, rfl⟩ := fetchLoop_cons_ok env u rest bufs hfetch
  have hev := (fetchLoop_ok_events env (u :: rest) (b :: bs) hfetch).1
  refine ⟨b, hu, ?_, ?_⟩
  · simp only [ImageGenerator.get_images, hgen, hfetch]
  · simp only [ImageGenerator.get_images, hgen, hfetch, hev]
    simp [ImageGenerator.generate_visual, Event.isDecode, List.filter_append,
      List.filter_eq_nil_iff]

/-- Witness for C1: in `envW` with two URLs, the result is the decode of
the body fetched from the first URL, and exactly one decode happens. -/
theorem getImages_decodes_first_witness :
    ∃ b1,
      (ImageGenerator.get_image_from_url envW "https://example.com/image1.png").2 =
        Except.ok b1 ∧
      (genW.get_images envW "A futuristic cityscape").2 = envW.decode b1 ∧
      (genW.get_images envW "A futuristic cityscape").1.filter Event.isDecode =
        [Event.decodeCall b1] :=
  getImages_decodes_first genW envW "A futuristic cityscape"
    "https://example.com/image1.png" ["https://example.com/image2.png"]
    [[30], [30]] rfl rfl

/-- Claim C7: in a successful run, the full trace of `get_images` is the
single API call followed by exactly one GET per returned URL, in the
order the URLs were returned, followed by the single decode — the
fetches are a linear sequence, one after the other. -/
theorem getImages_fetch_per_url (g : ImageGenerator) (env : Env) (d : String)
    (urls : List String) (bufs : List Bytes)
    (hgen : (g.generate_visual env d).2 = Except.ok urls)
    (hfetch : (fetchLoop env urls).2 = Except.ok bufs)
    (hne : urls ≠ []) :
    ∃ b1, (g.get_images env d).1 =
      Event.apiCall (apiRequestOf g d) ::
        (urls.map (fun u => Event.httpGet u 10) ++ [Event.decodeCall b1]) := by
  obtain ⟨u, rest, rfl⟩ := List.exists_cons_of_ne_nil hne
  obtain ⟨b, bs, hu, hrest, rfl⟩ := fetchLoop_cons_ok env u rest bufs hfetch
  have hev := (fetchLoop_ok_events env (u :: rest) (b :: bs) hfetch).1
  refine ⟨b, ?_⟩
  simp only [ImageGenerator.get_images, hgen, hfetch, hev]
  simp [ImageGenerator.generate_visual]

/-- Witness for C7: in `envW` with two URLs the trace is the API call,
the two GETs in order, then the decode of the first buffer. -/
theorem getImages_fetch_per_url_witness :
    ∃ b1, (genW.get_images envW "A futuristic cityscape").1 =
      Event.apiCall (apiRequestOf genW "A futuristic cityscape") ::
        ((["https://example.com/image1.png", "https://example.com/image2.png"].map
            (fun u => Event.httpGet u 10)) ++ [Event.decodeCall b1]) :=
  getImages_fetch_per_url genW envW "A futuristic cityscape"
    ["https://example.com/image1.png", "https://example.com/image2.png"]
    [[30], [30]] rfl rfl (by decide)

/-- Claim C8: failures propagate unchanged with no retry and no
fallback.  If the generation API fails with `e`, `get_images` fails with
the same `e` and its whole trace is the single API call (no retry, no
fetch).  If the API succeeds but the fetch loop fails with `e`,
`get_images` fails with the same `e` and its trace is the single API
call followed by exactly the fetch events the loop performed (no second
API call, no re-fetch, no decode).  The generator itself is an immutable
structure and no operation of the embedding rebinds its fields, so the
stored parameters after a call are the ones stored at construction. -/
theorem getImages_error_propagation (g : ImageGenerator) (env : Env) (d : String) :
    (∀ e, env.generate (apiRequestOf g d) = Except.error e →
      g.get_images env d = ([Event.apiCall (apiRequestOf g d)], Except.error e)) ∧
    (∀ urls e, (g.generate_visual env d).2 = Except.ok urls →
      (fetchLoop env urls).2 = Except.error e →
      (g.get_images env d).2 = Except.error e ∧
      (g.get_images env d).1 =
        Event.apiCall (apiRequestOf g d) :: (fetchLoop env urls).1) := by
  constructor
  · intro e h
    simp [ImageGenerator.get_images, ImageGenerator.generate_visual, h]
  · intro urls e hgen hfetch
    constructor
    · simp only [ImageGenerator.get_images, hgen, hfetch]
    · simp only [ImageGenerator.get_images, hgen, hfetch]
      simp [ImageGenerator.generate_visual]

/-- Witness for C8: a failing generation API surfaces its exact error
with only the API call in the trace, and a timing-out fetch surfaces the
timeout error unchanged. -/
theorem getImages_error_propagation_witness :
    genW.get_images envApiFail "A futuristic cityscape" =
      ([Event.apiCall (apiRequestOf genW "A futuristic cityscape")],
        Except.error (Err.apiFailure 7)) ∧
    (genW.get_images envFetchFail "A futuristic cityscape").2 =
      Except.error Err.timeoutFailure :=
  ⟨(getImages_error_propagation genW envApiFail "A futuristic cityscape").1
      (Err.apiFailure 7) rfl,
   ((getImages_error_propagation genW envFetchFail "A futuristic cityscape").2
      ["https://example.com/image1.png", "https://example.com/image2.png"]
      Err.timeoutFailure rfl rfl).1⟩

end GDTool
